import Mathlib

/-!
Verification of the Meetup MCP server's query-parameter extraction and
event-formatting pipeline, shallowly embedded from
`src/mcp_servers/mcp-meetup/meetup_claude_mcp_server_fixed.py` (namespace
`Fixed`) and `src/mcp_servers/mcp-meetup/meetup_claude_mcp_server.py`
(namespace `V1`).  Text is modelled as `List Char` (the code lower-cases
its input and matches with ASCII regexes), timestamps as a day index plus
a second-of-day, and Python floats as rationals.
-/

namespace Meetup

/-- `String.toList` shorthand used to write the literal rule tables. -/
def toL (s : String) : List Char := s.toList

/-- Python's `\w` on ASCII text: letters, digits, underscore. -/
def isWordChar (c : Char) : Bool := c.isAlpha || c.isDigit || c == '_'

/-- Python's `\s` on ASCII text: space, tab, newline, carriage return,
form feed, vertical tab. -/
def pySpace (c : Char) : Bool :=
  c == ' ' || c == '\t' || c == '\n' || c == '\r' || c == '\x0c' || c == '\x0b'

/-- Does the literal `p` (which begins and ends with word characters, as all
patterns in the source do) match at the current position, with `prev` the
character just before it?  This is `re.search`'s test of `\b<p>\b` at one
position: the preceding and following characters must not be word
characters. -/
def wbMatchHere (p : List Char) (prev : Option Char) (s : List Char) : Bool :=
  (match prev with
   | none => true
   | some c => !isWordChar c)
  && p.isPrefixOf s
  && (match (s.drop p.length).head? with
      | none => true
      | some c => !isWordChar c)

/-- Scan of `re.search(r'\b<p>\b', s)`: try each position left to right. -/
def wbSearchAux (p : List Char) (prev : Option Char) : List Char → Bool
  | [] => wbMatchHere p prev []
  | c :: rest => wbMatchHere p prev (c :: rest) || wbSearchAux p (some c) rest

/-- `re.search(r'\b<p>\b', s) is not None` for a literal `p` that begins and
ends with word characters. -/
def wbSearch (p s : List Char) : Bool := wbSearchAux p none s

/-- Characters allowed inside the capture group of
`r'\bin ([A-Za-z\s,]+?)(?:\s|$)'`. -/
def locClassChar (c : Char) : Bool := c.isAlpha || pySpace c || c == ','

/-- Lazy expansion of `([A-Za-z\s,]+?)(?:\s|$)` at the current position:
the shortest nonempty run of class characters whose successor is
whitespace or the end of the string.  Returns the captured run together
with the terminator consumed by `(?:\s|$)` (`none` at end of string). -/
def lazyCap : List Char → Option (List Char × Option Char)
  | [] => none
  | c :: rest =>
    if locClassChar c then
      match rest with
      | [] => some ([c], none)
      | d :: _ =>
        if pySpace d then some ([c], some d)
        else
          match lazyCap rest with
          | some (cs, t) => some (c :: cs, t)
          | none => none
    else none

/-- `re.search(r'\bin ([A-Za-z\s,]+?)(?:\s|$)', s)`: leftmost position with
a word boundary, the literal `"in "`, and a successful lazy capture.
Returns the capture and its terminator. -/
def inSearchAux (prev : Option Char) : List Char → Option (List Char × Option Char)
  | [] => none
  | c :: rest =>
    let here :=
      if (match prev with
          | none => true
          | some pc => !isWordChar pc)
          && (toL "in ").isPrefixOf (c :: rest) then
        lazyCap ((c :: rest).drop 3)
      else none
    match here with
    | some r => some r
    | none => inSearchAux (some c) rest

/-- Search for the `"in <place>"` location pattern over the whole string. -/
def inSearch (s : List Char) : Option (List Char × Option Char) :=
  inSearchAux none s

/-- Python's `str.strip()` on ASCII text. -/
def pyStrip (s : List Char) : List Char :=
  ((s.dropWhile pySpace).reverse.dropWhile pySpace).reverse

/-- Python's `str.lower()` on ASCII text. -/
def lowerStr (s : List Char) : List Char := s.map Char.toLower

/-- Python's substring test `needle in hay`. -/
def pyIn (needle : List Char) : List Char → Bool
  | [] => needle.isEmpty
  | c :: rest => needle.isPrefixOf (c :: rest) || pyIn needle rest

end Meetup

namespace Meetup

/-- A naive `datetime` at the granularity this code manipulates: a
calendar-day index (days since 1970-01-01) and the second within that day.
`datetime.now().replace(hour=0, minute=0, second=0, microsecond=0)` zeroes
the second-of-day; `+ timedelta(days=n)` adds `n` to the day index. -/
structure DateTime where
  day : Int
  secOfDay : Nat
deriving DecidableEq, Repr

/-- `now.replace(hour=0, minute=0, second=0, microsecond=0)`. -/
def midnight (now : DateTime) : DateTime := ⟨now.day, 0⟩

/-- `t + timedelta(days=n)` for a midnight-normalised naive datetime. -/
def addDays (t : DateTime) (n : Int) : DateTime := ⟨t.day + n, t.secOfDay⟩

/-- `EventQuery` (pydantic model): the structured search query.  The
`max_results` default `Config.MAX_EVENTS_PER_QUERY` is threaded in as an
explicit parameter of the extractors. -/
structure EventQuery where
  location : Option (List Char) := none
  keywords : List (List Char) := []
  start_time : Option DateTime := none
  remote_only : Bool := false
  max_results : Nat
deriving DecidableEq, Repr

/-- Default value of the environment-derived `Config.MAX_EVENTS_PER_QUERY`
(`int(os.getenv('MAX_EVENTS_PER_QUERY', '20'))`). -/
def MAX_EVENTS_PER_QUERY_default : Nat := 20

/-- The location rules shared by both variants
(`location_patterns = [r'\bnear me\b', r'\bin ([A-Za-z\s,]+?)(?:\s|$)']`
with first-match-wins and the `'near me' in match.group(0)` test on the
winning match). -/
def extractLocation (prompt_lower : List Char) : Option (List Char) :=
  if wbSearch (toL "near me") prompt_lower then
    -- group(0) of the first pattern is "near me" itself
    some (toL "current_location")
  else
    match inSearch prompt_lower with
    | some (cap, term) =>
      let group0 := toL "in " ++ cap ++ (match term with
        | some c => [c]
        | none => [])
      if pyIn (toL "near me") group0 then some (toL "current_location")
      else some (pyStrip cap)
    | none => none

/-- `any(term in prompt_lower for term in ['remote', 'online', 'virtual'])`. -/
def extractRemote (prompt_lower : List Char) : Bool :=
  [toL "remote", toL "online", toL "virtual"].any fun t => pyIn t prompt_lower

/-- Keyword scan: append each vocabulary term present as a substring, in
vocabulary order. -/
def extractKeywords (vocab : List (List Char)) (prompt_lower : List Char) :
    List (List Char) :=
  vocab.filter fun k => pyIn k prompt_lower

/-- First-match-wins walk of a time-pattern table
(`for pattern, time_func in time_patterns.items(): if re.search(...): ...; break`). -/
def extractStartTime (tbl : List (List Char × DateTime))
    (prompt_lower : List Char) : Option DateTime :=
  tbl.findSome? fun pt => if wbSearch pt.1 prompt_lower then some pt.2 else none

end Meetup

namespace Fixed

open Meetup

/-- Time-pattern table of `meetup_claude_mcp_server_fixed.py` (lines
189-194): `today`, `tomorrow`, `this week`, `next week`, in declaration
order, each resolver anchored at `now` and truncated to midnight. -/
def time_patterns (now : DateTime) : List (List Char × DateTime) :=
  [ (toL "today", midnight now),
    (toL "tomorrow", addDays (midnight now) 1),
    (toL "this week", midnight now),
    (toL "next week", addDays (midnight now) 7) ]

/-- Keyword vocabulary of `meetup_claude_mcp_server_fixed.py` (lines
220-223). -/
def tech_keywords : List (List Char) :=
  [ toL "programming", toL "coding", toL "software", toL "tech",
    toL "python", toL "javascript", toL "data science",
    toL "machine learning", toL "ai", toL "web development", toL "mobile" ]

/-- `extract_query_parameters` of `meetup_claude_mcp_server_fixed.py`
(lines 183-229).  `maxResults` is `Config.MAX_EVENTS_PER_QUERY`; `now` is
the injected clock reading used by the time resolvers. -/
def extract_query_parameters (maxResults : Nat) (now : DateTime)
    (user_prompt : List Char) : EventQuery :=
  let prompt_lower := lowerStr user_prompt
  { location := extractLocation prompt_lower
    keywords := extractKeywords tech_keywords prompt_lower
    start_time := extractStartTime (time_patterns now) prompt_lower
    remote_only := extractRemote prompt_lower
    max_results := maxResults }

end Fixed

namespace V1

open Meetup

/-- Time-pattern table of `meetup_claude_mcp_server.py` (lines 130-134):
`today`, `tomorrow`, `this week` — three entries, no `next week`. -/
def time_patterns (now : DateTime) : List (List Char × DateTime) :=
  [ (toL "today", midnight now),
    (toL "tomorrow", addDays (midnight now) 1),
    (toL "this week", midnight now) ]

/-- Keyword vocabulary of `meetup_claude_mcp_server.py` (line 154). -/
def tech_keywords : List (List Char) :=
  [ toL "programming", toL "coding", toL "software", toL "tech",
    toL "python", toL "javascript", toL "data science" ]

/-- `EventDiscoveryEngine.extract_query_parameters` of
`meetup_claude_mcp_server.py` (lines 124-159). -/
def extract_query_parameters (maxResults : Nat) (now : DateTime)
    (user_prompt : List Char) : EventQuery :=
  let prompt_lower := lowerStr user_prompt
  { location := extractLocation prompt_lower
    keywords := extractKeywords tech_keywords prompt_lower
    start_time := extractStartTime (time_patterns now) prompt_lower
    remote_only := extractRemote prompt_lower
    max_results := maxResults }

end V1

namespace Meetup

/-- Civil (proleptic Gregorian) date from a 1970-01-01-based day count
(the standard `civil_from_days` computation), giving the year, month and
day that `datetime` renders. -/
def civilFromDays (z0 : Int) : Int × Nat × Nat :=
  let z := z0 + 719468
  let era := z.fdiv 146097
  let doe := (z - era * 146097).toNat
  let yoe := (doe - doe / 1460 + doe / 36524 - doe / 146096) / 365
  let y := (yoe : Int) + era * 400
  let doy := doe - (365 * yoe + yoe / 4 - yoe / 100)
  let mp := (5 * doy + 2) / 153
  let d := doy - (153 * mp + 2) / 5 + 1
  let m := if mp < 10 then mp + 3 else mp - 9
  (if m ≤ 2 then y + 1 else y, m, d)

/-- Zero-pad to two digits. -/
def pad2 (n : Nat) : String := if n < 10 then "0" ++ toString n else toString n

/-- Zero-pad to four digits. -/
def pad4 (n : Nat) : String :=
  if n < 10 then "000" ++ toString n
  else if n < 100 then "00" ++ toString n
  else if n < 1000 then "0" ++ toString n
  else toString n

/-- `t.strftime('%Y-%m-%d %H:%M')`. -/
def strftimeDateHM (t : DateTime) : String :=
  let c := civilFromDays t.day
  pad4 c.1.toNat ++ "-" ++ pad2 c.2.1 ++ "-" ++ pad2 c.2.2 ++ " " ++
    pad2 (t.secOfDay / 3600) ++ ":" ++ pad2 (t.secOfDay % 3600 / 60)

/-- Decimal digits of `num / den` (with `num < den`), by long division,
with fuel.  Mirrors Python's rendering of floats whose value has a short
exact decimal expansion — which covers every fee amount this development
evaluates. -/
def fracDigitsND (den : Nat) : Nat → Nat → String
  | 0, _ => ""
  | fuel + 1, num =>
    if num = 0 then ""
    else toString (num * 10 / den) ++ fracDigitsND den fuel (num * 10 % den)

/-- Python's `str`/f-string rendering of a float with a short exact
decimal expansion: optional sign, integer part, a dot, then the
fractional digits (at least one, so `15.0` renders as `"15.0"`), computed
from the reduced numerator and denominator. -/
def pyFloatStr (q : ℚ) : String :=
  let sign := if q.num < 0 then "-" else ""
  let n := q.num.natAbs
  sign ++ toString (n / q.den) ++ "." ++
    (if n % q.den = 0 then "0" else fracDigitsND q.den 17 (n % q.den))

/-- `MeetupEvent` (pydantic model): the normalized event record consumed by
the formatter.  Optional string fields keep Python's distinction between
`None` and a (possibly empty, falsy) string; the float fee is a rational. -/
structure MeetupEvent where
  id : String
  title : String
  description : String
  url : String
  start_time : DateTime
  venue_name : Option String := none
  venue_city : Option String := none
  is_online : Bool := false
  group_name : String
  group_url : String
  attendee_count : Nat := 0
  fee_amount : Option ℚ := none
  fee_currency : Option String := none
deriving DecidableEq, Repr

/-- Python truthiness of an optional string (`None` and `""` are falsy). -/
def optStrTruthy : Option String → Bool
  | none => false
  | some s => !(s == "")

/-- Python truthiness of the optional float `fee_amount` (`None` and `0.0`
are falsy; a rational is zero exactly when its reduced numerator is). -/
def optRatTruthy : Option ℚ → Bool
  | none => false
  | some q => !(q.num == 0)

/-- The location lines of one formatted event (`format_events_for_context`
lines 325-331 of the fixed file; identical in
`PromptAugmentationService._format_events_for_context`, lines 261-267):
`is_online` wins outright, else a truthy venue name is emitted with the
truthy venue city appended after a comma, else no line at all. -/
def locationLines (e : MeetupEvent) : List String :=
  if e.is_online then ["  - Location: Online/Remote"]
  else if optStrTruthy e.venue_name then
    let vn := e.venue_name.getD ""
    let location :=
      if optStrTruthy e.venue_city then vn ++ ", " ++ e.venue_city.getD ""
      else vn
    ["  - Location: " ++ location]
  else []

/-- The attendee line of one formatted event (emitted only when the count
is truthy, i.e. nonzero). -/
def attendeeLines (e : MeetupEvent) : List String :=
  if e.attendee_count ≠ 0 then
    ["  - Attendees: " ++ toString e.attendee_count]
  else []

/-- The fee line of one formatted event (lines 336-339 of the fixed file):
a truthy (present, nonzero) amount renders as
`"<amount> <currency or USD>"`, anything else as `"Free"`. -/
def feeLine (e : MeetupEvent) : String :=
  if optRatTruthy e.fee_amount then
    "  - Fee: " ++ pyFloatStr (e.fee_amount.getD 0) ++ " " ++
      (if optStrTruthy e.fee_currency then e.fee_currency.getD "" else "USD")
  else "  - Fee: Free"

/-- The `info` list built for one event inside the formatting loop. -/
def eventInfo (e : MeetupEvent) : List String :=
  ["**" ++ e.title ++ "**",
   "  - Group: " ++ e.group_name,
   "  - Date: " ++ strftimeDateHM e.start_time]
  ++ locationLines e ++ attendeeLines e
  ++ [feeLine e, "  - URL: " ++ e.url]

/-- Shared body of both formatters: header with the full count, then the
first 10 events (1-based enumeration), `"\n".join`-ed. -/
def formatBody (events : List MeetupEvent) : String :=
  String.intercalate "\n" (
    ("Found " ++ toString events.length ++ " relevant events:") ::
    ((events.take 10).enum.map fun ie =>
      "\n" ++ toString (ie.1 + 1) ++ ". " ++ String.intercalate "\n" (eventInfo ie.2)))

/-- Python's `needle in hay` on strings. -/
def strContains (hay needle : String) : Bool := pyIn needle.toList hay.toList

end Meetup

namespace Fixed

open Meetup

/-- `format_events_for_context` of `meetup_claude_mcp_server_fixed.py`
(lines 311-344). -/
def format_events_for_context (events : List MeetupEvent) : String :=
  if events.isEmpty then "No events found matching your criteria."
  else formatBody events

end Fixed

namespace V1

open Meetup

/-- `PromptAugmentationService._format_events_for_context` of
`meetup_claude_mcp_server.py` (lines 247-280); it differs from the fixed
file's formatter only in the empty-list sentence. -/
def format_events_for_context (events : List MeetupEvent) : String :=
  if events.isEmpty then "No events found."
  else formatBody events

end V1

namespace Meetup

/-- The events constructed by the repository's own
`test_format_events_large_list`: `Event i`, `Group i`, `i*10` attendees,
no venue, no fee. -/
def testEvent (i : Nat) : MeetupEvent :=
  { id := toString i,
    title := "Event " ++ toString i,
    description := "Description " ++ toString i,
    url := "https://meetup.com/event" ++ toString i,
    start_time := ⟨0, 0⟩,
    group_name := "Group " ++ toString i,
    group_url := "https://meetup.com/group" ++ toString i,
    attendee_count := i * 10 }

/-- The 15-event input of `test_format_events_large_list`. -/
def testEvents15 : List MeetupEvent := (List.range 15).map testEvent

/-- An online event whose venue fields are populated. -/
def onlineEventEx : MeetupEvent :=
  { id := "2", title := "Remote JavaScript Workshop", description := "JS workshop",
    url := "https://meetup.com/js", start_time := ⟨19723, 19 * 3600⟩,
    venue_name := some "Tech Hub", venue_city := some "San Francisco",
    is_online := true, group_name := "JS Developers",
    group_url := "https://meetup.com/js-dev", attendee_count := 50 }

/-- An event with no fee information. -/
def freeEventEx : MeetupEvent :=
  { id := "3", title := "Free Python Meetup", description := "Free meetup",
    url := "https://meetup.com/py", start_time := ⟨19723, 18 * 3600⟩,
    group_name := "SF Python", group_url := "https://meetup.com/sf-python",
    attendee_count := 25 }

/-- An event with fee amount 15.0 and currency USD. -/
def paidEventEx : MeetupEvent :=
  { freeEventEx with id := "4", fee_amount := some 15, fee_currency := some "USD" }

/-- An event with a nonzero fee amount and no currency. -/
def noCurrencyEventEx : MeetupEvent :=
  { freeEventEx with id := "5", fee_amount := some 10 }

end Meetup

section Scratch

open Meetup

example : wbSearch (toL "near me") (toL "events near me") = true := by decide
example : wbSearch (toL "near me") (toL "near mean") = false := by decide
example : (Fixed.extract_query_parameters 20 ⟨0, 0⟩
    (toL "events in San Francisco")).location = some (toL "san") := by decide
example : (Fixed.extract_query_parameters 20 ⟨3, 0⟩
    (toL "remote python programming events near me today")) =
    { location := some (toL "current_location"),
      keywords := [toL "programming", toL "python"],
      start_time := some ⟨3, 0⟩,
      remote_only := true,
      max_results := 20 } := by decide
example : inSearch (toL "in a,b c") = some (toL "a,b", some ' ') := by decide
example : inSearch (toL "meetups in new york, ny today") =
    some (toL "new", some ' ') := by decide
example : strftimeDateHM ⟨0, 0⟩ = "1970-01-01 00:00" := by decide
example : strftimeDateHM ⟨19723, 18 * 3600⟩ = "2024-01-01 18:00" := by decide
example : pyFloatStr 15 = "15.0" := by decide
example : pyFloatStr 0 = "0.0" := by decide
example : feeLine
    { id := "1", title := "t", description := "", url := "u",
      start_time := ⟨0, 0⟩, group_name := "g", group_url := "gu",
      fee_amount := some 15, fee_currency := some "USD" } =
    "  - Fee: 15.0 USD" := by decide
example : strContains
    (Fixed.format_events_for_context
      [{ id := "1", title := "Python Meetup", description := "", url := "u",
         start_time := ⟨0, 0⟩, group_name := "SF Python", group_url := "gu",
         venue_name := some "Tech Hub", venue_city := some "San Francisco",
         attendee_count := 25 }])
    "Tech Hub, San Francisco" = true := by decide

end Scratch

namespace Meetup

/-- First-match-wins characterisation of `List.findSome?`: if every entry
before index `i` yields `none` and entry `i` yields a value, the scan
returns entry `i`'s value. -/
theorem findSome?_first_hit {α β : Type} (f : α → Option β) :
    ∀ (l : List α) (i : Nat) (hi : i < l.length),
      (f (l.get ⟨i, hi⟩)).isSome = true →
      (∀ j (hj : j < i), f (l.get ⟨j, Nat.lt_trans hj hi⟩) = none) →
      l.findSome? f = f (l.get ⟨i, hi⟩) := by
  intro l
  induction l with
  | nil => intro i hi _ _; exact absurd hi (Nat.not_lt_zero i)
  | cons a t ih =>
    intro i hi hsome hnone
    cases i with
    | zero =>
      show (a :: t).findSome? f = f a
      rw [List.findSome?_cons]
      cases h : f a with
      | none => rw [show (a :: t).get ⟨0, hi⟩ = a from rfl, h] at hsome; simp at hsome
      | some b => rfl
    | succ i =>
      have h0 : f a = none := hnone 0 (Nat.succ_pos i)
      show (a :: t).findSome? f = f (t.get ⟨i, Nat.lt_of_succ_lt_succ hi⟩)
      rw [List.findSome?_cons, h0]
      exact ih i (Nat.lt_of_succ_lt_succ hi) hsome
        (fun j hj => hnone (j + 1) (Nat.succ_lt_succ hj))

/-- A successful `List.findSome?` scan comes from some list element. -/
theorem findSome?_mem {α β : Type} (f : α → Option β) :
    ∀ (l : List α) (b : β), l.findSome? f = some b → ∃ a, a ∈ l ∧ f a = some b := by
  intro l
  induction l with
  | nil => intro b h; simp [List.findSome?] at h
  | cons a t ih =>
    intro b h
    rw [List.findSome?_cons] at h
    cases hfa : f a with
    | some c =>
      rw [hfa] at h
      exact ⟨a, List.mem_cons_self a t, by rw [hfa]; exact h⟩
    | none =>
      rw [hfa] at h
      obtain ⟨x, hx, hfx⟩ := ih b h
      exact ⟨x, List.mem_cons_of_mem a hx, hfx⟩

/-- Every resolver in the fixed variant's time table produces a
midnight-truncated timestamp. -/
theorem fixed_time_patterns_midnight (now : DateTime) :
    ∀ pt ∈ Fixed.time_patterns now, pt.2.secOfDay = 0 := by
  intro pt hpt
  simp only [Fixed.time_patterns, List.mem_cons, List.not_mem_nil, or_false] at hpt
  rcases hpt with h | h | h | h <;> rw [h] <;> rfl

end Meetup

section Claims

open Meetup

/-- C1: evaluation of both extractors on the repository's own test inputs.
A text with the word-bounded phrase "near me" does get the
current-location sentinel, but "events in San Francisco" yields the
location "san": the prompt is lower-cased and the lazy capture
`([A-Za-z\s,]+?)` of the `"in <place>"` pattern stops at the first
whitespace, so the test's expected "San Francisco" is never produced. -/
theorem c1_location_capture_bug :
    (Fixed.extract_query_parameters 20 ⟨0, 0⟩
        (toL "events near me")).location = some (toL "current_location") ∧
    (V1.extract_query_parameters 20 ⟨0, 0⟩
        (toL "events near me")).location = some (toL "current_location") ∧
    (Fixed.extract_query_parameters 20 ⟨0, 0⟩
        (toL "events in San Francisco")).location = some (toL "san") ∧
    (V1.extract_query_parameters 20 ⟨0, 0⟩
        (toL "events in San Francisco")).location = some (toL "san") ∧
    toL "san" ≠ toL "San Francisco" := by decide

set_option maxRecDepth 100000 in
/-- C2: evaluation of the formatter on the 15-event input of the
repository's own `test_format_events_large_list`.  The header reports
"Found 15", exactly events 1-10 are listed by title ("Event 0" through
"Event 9", with no "Event 10" and no 11th index), but the trailing
"and 5 more events" note the claim (and the test) demand is absent. -/
theorem c2_trailing_note_missing :
    strContains (Fixed.format_events_for_context testEvents15) "Found 15" = true ∧
    strContains (Fixed.format_events_for_context testEvents15) "**Event 0**" = true ∧
    strContains (Fixed.format_events_for_context testEvents15) "**Event 9**" = true ∧
    strContains (Fixed.format_events_for_context testEvents15) "\n10. " = true ∧
    strContains (Fixed.format_events_for_context testEvents15) "**Event 10**" = false ∧
    strContains (Fixed.format_events_for_context testEvents15) "\n11. " = false ∧
    strContains (Fixed.format_events_for_context testEvents15) "and 5 more events" = false ∧
    strContains (Fixed.format_events_for_context testEvents15) "more events" = false := by
  decide

/-- C3 counterexample: the smaller-variant time table
(`meetup_claude_mcp_server.py`) has 3 entries, not 2, and its extractor
sets `start_time` for "this week" as well, so "sets start_time only for
texts matching today or tomorrow" is false. -/
theorem c3_two_entry_table_refuted :
    (V1.time_patterns ⟨0, 0⟩).length = 3 ∧
    (V1.extract_query_parameters 20 ⟨0, 0⟩
        (toL "events this week")).start_time = some ⟨0, 0⟩ := by decide

/-- C3 amended: the smaller variant's table has exactly 3 entries (today,
tomorrow, this week) and the other variant has 4, additionally resolving
"next week" to today's midnight plus 7 days; the 4-entry table is a
superset (its first 3 entries are the smaller table). -/
theorem c3_time_table_variants (now : DateTime) :
    (V1.time_patterns now).map Prod.fst =
      [toL "today", toL "tomorrow", toL "this week"] ∧
    (Fixed.time_patterns now).map Prod.fst =
      [toL "today", toL "tomorrow", toL "this week", toL "next week"] ∧
    (V1.time_patterns now).length = 3 ∧
    (Fixed.time_patterns now).length = 4 ∧
    (Fixed.time_patterns now).take 3 = V1.time_patterns now ∧
    (V1.extract_query_parameters 20 now (toL "events next week")).start_time =
      none ∧
    (Fixed.extract_query_parameters 20 now (toL "events next week")).start_time =
      some ⟨now.day + 7, 0⟩ ∧
    (V1.extract_query_parameters 20 now (toL "events this week")).start_time =
      some ⟨now.day, 0⟩ :=
  ⟨rfl, rfl, rfl, rfl, rfl, rfl, rfl, rfl⟩

/-- C5: on "remote python programming events near me today" the extractor
returns remote_only = true, keywords ["programming", "python"] (vocabulary
order), the current-location sentinel, and today's midnight, for every
injected clock reading and configured cap. -/
theorem c5_combined_query (cap : Nat) (now : DateTime) :
    Fixed.extract_query_parameters cap now
        (toL "remote python programming events near me today") =
      { location := some (toL "current_location"),
        keywords := [toL "programming", toL "python"],
        start_time := some ⟨now.day, 0⟩,
        remote_only := true,
        max_results := cap } := rfl

/-- C6: the extractor is a total function of its input, and on the empty
string and on "hello world" every field of the resulting query is at its
default value (no location, no keywords, no start time, remote_only
false, max_results at the configured cap). -/
theorem c6_defaults (cap : Nat) (now : DateTime) :
    Fixed.extract_query_parameters cap now (toL "") =
      { location := none, keywords := [], start_time := none,
        remote_only := false, max_results := cap } ∧
    Fixed.extract_query_parameters cap now (toL "hello world") =
      { location := none, keywords := [], start_time := none,
        remote_only := false, max_results := cap } :=
  ⟨rfl, rfl⟩

/-- C10: the extractor never derives the result-count cap from the query
text: `max_results` always equals the configured
`MAX_EVENTS_PER_QUERY` value (default 20), in both variants. -/
theorem c10_max_results_frame (cap : Nat) (now : DateTime) (s : List Char) :
    (Fixed.extract_query_parameters cap now s).max_results = cap ∧
    (Fixed.extract_query_parameters MAX_EVENTS_PER_QUERY_default now s).max_results
      = 20 ∧
    (V1.extract_query_parameters cap now s).max_results = cap :=
  ⟨rfl, rfl, rfl⟩

/-- C4: time extraction is first-match-wins in table declaration order —
if entry `i` of the table matches the lower-cased prompt and no earlier
entry does, `start_time` is entry `i`'s resolved timestamp; whenever
`start_time` is set it is truncated to midnight (second-of-day zero); and
a text with both "today" and "tomorrow" resolves to today's midnight. -/
theorem c4_first_match_wins :
    (∀ (cap : Nat) (now : DateTime) (s : List Char) (i : Nat)
        (hi : i < (Fixed.time_patterns now).length),
      wbSearch ((Fixed.time_patterns now).get ⟨i, hi⟩).1 (lowerStr s) = true →
      (∀ j (hj : j < i),
        wbSearch ((Fixed.time_patterns now).get ⟨j, Nat.lt_trans hj hi⟩).1
          (lowerStr s) = false) →
      (Fixed.extract_query_parameters cap now s).start_time =
        some ((Fixed.time_patterns now).get ⟨i, hi⟩).2) ∧
    (∀ (cap : Nat) (now : DateTime) (s : List Char) (t : DateTime),
      (Fixed.extract_query_parameters cap now s).start_time = some t →
      t.secOfDay = 0) ∧
    (∀ (cap : Nat) (now : DateTime),
      (Fixed.extract_query_parameters cap now
          (toL "events today and tomorrow")).start_time = some ⟨now.day, 0⟩) := by
  refine ⟨?_, ?_, ?_⟩
  · intro cap now s i hi hmatch hnone
    show extractStartTime (Fixed.time_patterns now) (lowerStr s) = _
    unfold extractStartTime
    rw [findSome?_first_hit _ _ i hi (by rw [hmatch]; rfl)
      fun j hj => by rw [hnone j hj]; rfl]
    rw [hmatch, if_pos rfl]
  · intro cap now s t h
    have h2 : extractStartTime (Fixed.time_patterns now) (lowerStr s) = some t := h
    unfold extractStartTime at h2
    obtain ⟨pt, hmem, hf⟩ := findSome?_mem _ _ _ h2
    by_cases hw : wbSearch pt.1 (lowerStr s) = true
    · rw [if_pos hw] at hf
      obtain rfl : pt.2 = t := Option.some.inj hf
      exact fixed_time_patterns_midnight now pt hmem
    · rw [if_neg hw] at hf
      exact absurd hf (by simp)
  · intro cap now
    rfl

/-- Witness for C4 at the clock reading day 2 and the concrete text
"events today and tomorrow", whose earliest matching table entry is
"today" (index 0). -/
theorem c4_first_match_wins_witness :
    wbSearch ((Fixed.time_patterns ⟨2, 0⟩).get ⟨0, by decide⟩).1
      (lowerStr (toL "events today and tomorrow")) = true ∧
    (Fixed.extract_query_parameters 20 ⟨2, 0⟩
        (toL "events today and tomorrow")).start_time =
      some ((Fixed.time_patterns ⟨2, 0⟩).get ⟨0, by decide⟩).2 ∧
    (Fixed.extract_query_parameters 20 ⟨2, 0⟩
        (toL "events today and tomorrow")).start_time = some ⟨2, 0⟩ ∧
    (⟨2, 0⟩ : DateTime).secOfDay = 0 := by
  refine ⟨by decide, ?_, ?_, ?_⟩
  · exact c4_first_match_wins.1 20 ⟨2, 0⟩ (toL "events today and tomorrow") 0
      (by decide) (by decide) (fun j hj => absurd hj (Nat.not_lt_zero j))
  · exact c4_first_match_wins.2.2 20 ⟨2, 0⟩
  · exact c4_first_match_wins.2.1 20 ⟨2, 0⟩ (toL "events today and tomorrow")
      ⟨2, 0⟩ (c4_first_match_wins.2.2 20 ⟨2, 0⟩)

/-- C7: both functions are deterministic — two invocations on identical
inputs (same text, same event list, same injected clock reading) return
identical results; in this embedding both are pure functions of their
arguments, so no state survives between calls. -/
theorem c7_deterministic (cap : Nat) (now₁ now₂ : DateTime)
    (s₁ s₂ : List Char) (evs₁ evs₂ : List MeetupEvent)
    (hnow : now₁ = now₂) (hs : s₁ = s₂) (hevs : evs₁ = evs₂) :
    Fixed.extract_query_parameters cap now₁ s₁ =
      Fixed.extract_query_parameters cap now₂ s₂ ∧
    Fixed.format_events_for_context evs₁ = Fixed.format_events_for_context evs₂ := by
  subst hnow; subst hs; subst hevs; exact ⟨rfl, rfl⟩

/-- Witness for C7 at a concrete text and a concrete one-event list. -/
theorem c7_deterministic_witness :
    Fixed.extract_query_parameters 20 ⟨1, 0⟩ (toL "tech events today") =
      Fixed.extract_query_parameters 20 ⟨1, 0⟩ (toL "tech events today") ∧
    Fixed.format_events_for_context [freeEventEx] =
      Fixed.format_events_for_context [freeEventEx] :=
  c7_deterministic 20 ⟨1, 0⟩ ⟨1, 0⟩ (toL "tech events today")
    (toL "tech events today") [freeEventEx] [freeEventEx] rfl rfl rfl

/-- C8: for every event with `is_online = true` the formatter's location
line is exactly "Online/Remote" — whatever the venue fields hold — and
that line appears in the event's formatted block. -/
theorem c8_online_location_wins (e : MeetupEvent) (h : e.is_online = true) :
    locationLines e = ["  - Location: Online/Remote"] ∧
    "  - Location: Online/Remote" ∈ eventInfo e := by
  constructor
  · simp [locationLines, h]
  · simp [eventInfo, locationLines, h]

/-- Witness for C8 at an online event whose venue name and city are both
populated. -/
theorem c8_online_location_wins_witness :
    onlineEventEx.is_online = true ∧
    locationLines onlineEventEx = ["  - Location: Online/Remote"] ∧
    "  - Location: Online/Remote" ∈ eventInfo onlineEventEx :=
  ⟨rfl, (c8_online_location_wins onlineEventEx rfl).1,
    (c8_online_location_wins onlineEventEx rfl).2⟩

/-- C9: fee rendering — a zero or absent fee amount renders "Free"; amount
15.0 with currency "USD" renders "15.0 USD"; a nonzero amount with absent
currency falls back to the "USD" label (and the formatter, a total
function, never fails on missing optional fields). -/
theorem c9_fee_rendering (e : MeetupEvent) :
    ((e.fee_amount = none ∨ e.fee_amount = some 0) →
      feeLine e = "  - Fee: Free") ∧
    (e.fee_amount = some 15 → e.fee_currency = some "USD" →
      feeLine e = "  - Fee: 15.0 USD") ∧
    (∀ a : ℚ, e.fee_amount = some a → a ≠ 0 → e.fee_currency = none →
      feeLine e = "  - Fee: " ++ pyFloatStr a ++ " " ++ "USD") := by
  refine ⟨?_, ?_, ?_⟩
  · rintro (h | h) <;> simp [feeLine, h, optRatTruthy]
  · intro h1 h2
    simp only [feeLine, h1, h2]
    decide
  · intro a h1 hne h2
    have hnum : (a.num == 0) = false := by
      simp [Rat.num_ne_zero.mpr hne]
    simp [feeLine, h1, h2, optRatTruthy, optStrTruthy, hnum]

/-- Witness for C9 at three concrete events: no fee, fee 15.0 USD, and
fee 10.0 with no currency. -/
theorem c9_fee_rendering_witness :
    feeLine freeEventEx = "  - Fee: Free" ∧
    feeLine paidEventEx = "  - Fee: 15.0 USD" ∧
    feeLine noCurrencyEventEx = "  - Fee: " ++ pyFloatStr 10 ++ " " ++ "USD" :=
  ⟨(c9_fee_rendering freeEventEx).1 (Or.inl rfl),
    (c9_fee_rendering paidEventEx).2.1 rfl rfl,
    (c9_fee_rendering noCurrencyEventEx).2.2 10 rfl (by norm_num) rfl⟩

end Claims
